import Mathlib

/-!
Shallow embedding of the gotham session middleware
(src/middleware/session/mod.rs) and verification of its specification.

The Rust middleware keeps per-client session state keyed by a cookie-carried
identifier.  We embed the data model (`SessionData`, its lifecycle flags, the
cookie configuration) and the per-request pipeline (`Middleware::call`,
`load_session`, `new_session`, `persist_session`, `send_cookie`,
`write_session`) as pure Lean functions.  Effects are made explicit:

* the pluggable backend becomes a record of pure functions (its trait lives in
  the `backend` submodule, outside the embedded file; the signature is taken
  from the call sites and the spec's backend contract);
* the rmp-serde serialization bound on the session value type becomes a
  `Codec` record (default value, fallible serialize, fallible deserialize);
* the request-scoped typed state container is modelled by its one slot that
  matters here, `Option (SessionData T)`;
* each call the middleware makes to `Backend::persist_session` is recorded in
  an event trace, so "number of persist calls" is a provable quantity;
* futures are collapsed: `FutureResult` success/failure becomes `Except`.
-/

namespace Gotham

/-- Session payload bytes (Rust `Vec<u8>`). -/
abbrev Bytes := List Nat

/-- Rust `SessionIdentifier { value: String }`: opaque token used both as the
cookie value and as the storage key. -/
structure SessionIdentifier where
  value : String
deriving DecidableEq

/-- Rust `enum SessionError { Backend(String), Deserialize }`. -/
inductive SessionError where
  | Backend (msg : String)
  | Deserialize
deriving DecidableEq

/-- Rust `enum SessionCookieState { New, Existing }`. -/
inductive SessionCookieState where
  | New
  | Existing
deriving DecidableEq

/-- Rust `enum SessionDataState { Clean, Dirty }`. -/
inductive SessionDataState where
  | Clean
  | Dirty
deriving DecidableEq

/-- Rust `enum SecureCookie { Insecure, Secure }`. -/
inductive SecureCookie where
  | Insecure
  | Secure
deriving DecidableEq

/-- Rust `SessionCookieConfig { name: String, secure: SecureCookie }`. -/
structure SessionCookieConfig where
  name : String
  secure : SecureCookie
deriving DecidableEq

/-- The `Default + Serialize + Deserialize` bound on the session value type,
reified: rmp-serde encode/decode may fail, the error payload is irrelevant
to the middleware (it is always discarded with `_`). -/
structure Codec (T : Type) where
  default : T
  serialize : T → Except Unit Bytes
  deserialize : Bytes → Except Unit T

/-- Modelled from the spec: the pluggable `Backend` trait is defined in the
`backend` submodule, which is not part of the embedded source; its operations
and their result types are taken from the spec's backend contract
(`randomIdentifier`, `readSession`, `persistSession`) and from the call sites
in the middleware.  `random_identifier` is modelled as the next identifier
this backend hands out. -/
structure Backend where
  random_identifier : SessionIdentifier
  read_session : SessionIdentifier → Except SessionError (Option Bytes)
  persist_session : SessionIdentifier → Bytes → Except SessionError Unit

/-- Rust `SessionData<T>`: the per-request session holder.  The `Arc` around
the shared cookie configuration is dropped (pure values need no sharing). -/
structure SessionData (T : Type) where
  value : T
  cookie_state : SessionCookieState
  state : SessionDataState
  identifier : SessionIdentifier
  backend : Backend
  cookie_config : SessionCookieConfig

/-- Rust `SessionData::new`: a brand new session is always `Dirty` (the code
comment: "Always persist a new session"), always `New`, takes a freshly
generated identifier from the backend and the default value of `T`. -/
def SessionData.new (codec : Codec T) (backend : Backend)
    (cookie_config : SessionCookieConfig) : SessionData T :=
  { value := codec.default
    cookie_state := SessionCookieState.New
    state := SessionDataState.Dirty
    identifier := backend.random_identifier
    backend := backend
    cookie_config := cookie_config }

/-- Rust `SessionData::construct`: build a session from the result of a
backend read.  Stored bytes present: decode them; decode success gives an
`Existing`/`Clean` session carrying the client-supplied identifier, decode
failure is a hard `Deserialize` error.  Bytes absent: fall back to
`SessionData::new` (fresh identifier, the client-supplied one is dropped). -/
def SessionData.construct (codec : Codec T) (backend : Backend)
    (cookie_config : SessionCookieConfig) (identifier : SessionIdentifier)
    (val : Option Bytes) : Except SessionError (SessionData T) :=
  match val with
  | some v =>
    match codec.deserialize v with
    | Except.ok value =>
      Except.ok
        { value := value
          cookie_state := SessionCookieState.Existing
          state := SessionDataState.Clean
          identifier := identifier
          backend := backend
          cookie_config := cookie_config }
    | Except.error _ => Except.error SessionError.Deserialize
  | none => Except.ok (SessionData.new codec backend cookie_config)

/-- Rust `impl Deref for SessionData`: an immutable borrow of the session
value.  It returns the session unchanged together with the value. -/
def SessionData.deref (s : SessionData T) : SessionData T × T :=
  (s, s.value)

/-- Rust `impl DerefMut for SessionData`: a mutable borrow of the session
value.  It first sets the dirty flag, then exposes the value. -/
def SessionData.deref_mut (s : SessionData T) : SessionData T × T :=
  ({ s with state := SessionDataState.Dirty }, s.value)

/-- The accesses a handler can make to a `SessionData` through its public
interface: an immutable borrow (`Deref`), or a mutable borrow (`DerefMut`)
through which the value may be rewritten. -/
inductive SessionOp (T : Type) where
  | read
  | write (f : T → T)

/-- Apply one access: a read goes through `Deref` and keeps the session the
borrow returned; a write goes through `DerefMut` and stores the rewritten
value through the returned mutable reference. -/
def applyOp : SessionOp T → SessionData T → SessionData T
  | SessionOp.read, s => (SessionData.deref s).1
  | SessionOp.write f, s =>
    let s₁ := (SessionData.deref_mut s).1
    { s₁ with value := f s₁.value }

/-- Apply a sequence of accesses left to right. -/
def applyOps (ops : List (SessionOp T)) (s : SessionData T) : SessionData T :=
  ops.foldl (fun s op => applyOp op s) s

/-- An HTTP response, with the parts the middleware touches made explicit:
the status code, the `SetCookie` typed header (hyper models it as a vector of
cookie strings, one emitted `Set-Cookie` header per element; `headers.set`
replaces the whole vector), the remaining headers, and the body. -/
structure Response where
  status : Nat
  setCookie : Option (List String)
  headers : List (String × String)
  body : List Nat
deriving DecidableEq

/-- Rust `Response::new()`: status 200, no headers, empty body. -/
def Response.new : Response :=
  { status := 200, setCookie := none, headers := [], body := [] }

/-- Rust `Response::with_status`. -/
def Response.with_status (r : Response) (s : Nat) : Response :=
  { r with status := s }

/-- How many `Set-Cookie` headers the response carries: one per element of
the `SetCookie` vector, zero when the header is absent. -/
def Response.setCookieCount (r : Response) : Nat :=
  match r.setCookie with
  | some l => l.length
  | none => 0

/-- The request-scoped typed state container, restricted to the one slot the
middleware uses: the `SessionData<T>` slot. -/
structure State (T : Type) where
  session : Option (SessionData T)

/-- Rust `state.put(session_data)`: store into the typed slot, replacing any
previous occupant. -/
def State.put (_ : State T) (sd : SessionData T) : State T :=
  { session := some sd }

/-- Rust `state.take::<SessionData<T>>()`: remove and return the slot's
occupant. -/
def State.take (st : State T) : Option (SessionData T) × State T :=
  (st.session, { session := none })

/-- One call of `Backend::persist_session`, as recorded in the event trace. -/
structure PersistEvent where
  identifier : SessionIdentifier
  bytes : Bytes
deriving DecidableEq

/-- Rust `send_cookie`: format the session cookie from the shared cookie
configuration and the session's identifier, and set it as the response's
`SetCookie` header (replacing any existing one). -/
def send_cookie (response : Response) (session_data : SessionData T) : Response :=
  let cookie_string :=
    match session_data.cookie_config.secure with
    | SecureCookie.Insecure =>
      session_data.cookie_config.name ++ "=" ++ session_data.identifier.value
        ++ "; HttpOnly"
    | SecureCookie.Secure =>
      session_data.cookie_config.name ++ "=" ++ session_data.identifier.value
        ++ "; secure; HttpOnly"
  { response with setCookie := some [cookie_string] }

/-- Rust `write_session`: serialize the session value; on serialize failure
return a freshly constructed internal-server-error response (dropping the
handler's response); otherwise call the backend's `persist_session`, keeping
the handler's response on success and again returning a fresh
internal-server-error response on failure.  Both outcomes are `future::ok`:
no error is ever propagated from here.  The returned trace records the
persist call when one was made. -/
def write_session (codec : Codec T) (state : State T) (response : Response)
    (session_data : SessionData T) :
    (State T × Response) × List PersistEvent :=
  let ise_response := Response.with_status Response.new 500
  match codec.serialize session_data.value with
  | Except.error _ => ((state, ise_response), [])
  | Except.ok bytes =>
    let identifier := session_data.identifier
    match session_data.backend.persist_session identifier bytes with
    | Except.ok _ => ((state, response), [{ identifier := identifier, bytes := bytes }])
    | Except.error _ => ((state, ise_response), [{ identifier := identifier, bytes := bytes }])

/-- Rust `persist_session`: response post-processing.  Take the session out
of the request state; if none is there, pass the response through unmodified.
Otherwise set the session cookie on the response when the session is `New`,
then write the session back through the backend when it is `Dirty` and do
nothing when it is `Clean`. -/
def persist_session (codec : Codec T) (sr : State T × Response) :
    (State T × Response) × List PersistEvent :=
  match State.take sr.1 with
  | (some session_data, state) =>
    let response :=
      match session_data.cookie_state with
      | SessionCookieState.New => send_cookie sr.2 session_data
      | SessionCookieState.Existing => sr.2
    match session_data.state with
    | SessionDataState.Dirty => write_session codec state response session_data
    | SessionDataState.Clean => ((state, response), [])
  | (none, state) => ((state, sr.2), [])

/-- The two failure messages `load_session` wraps into an `io::Error`:
"session couldn't be deserialized" around a `SessionData::construct` failure
and "backend failed to return session" around a backend read failure. -/
inductive LoadError where
  | deserializeError (e : SessionError)
  | backendError (e : SessionError)
deriving DecidableEq

/-- The error channel of the per-request pipeline: a load failure (carrying
the request state, as the Rust error tuple does) or a failure of the
downstream handler chain, propagated unchanged. -/
inductive MwError (T ε : Type) where
  | load (state : State T) (e : LoadError)
  | handler (e : ε)

/-- Rust `SessionMiddleware::load_session`: turn the backend read result into
a request state holding the session.  `Ok v` goes through
`SessionData::construct`; a construct failure or a backend error fails the
future with the corresponding wrapped error. -/
def SessionMiddleware.load_session (codec : Codec T) (backend : Backend)
    (cookie_config : SessionCookieConfig) (state : State T)
    (identifier : SessionIdentifier)
    (result : Except SessionError (Option Bytes)) :
    Except (State T × LoadError) (State T) :=
  match result with
  | Except.ok v =>
    match SessionData.construct codec backend cookie_config identifier v with
    | Except.ok session_data => Except.ok (State.put state session_data)
    | Except.error e => Except.error (state, LoadError.deserializeError e)
  | Except.error e => Except.error (state, LoadError.backendError e)

/-- Rust `SessionMiddleware::new_session`: put a brand new session into the
request state; this path cannot fail. -/
def SessionMiddleware.new_session (codec : Codec T) (backend : Backend)
    (cookie_config : SessionCookieConfig) (state : State T) : State T :=
  State.put state (SessionData.new codec backend cookie_config)

/-- Rust `impl Middleware for SessionMiddleware — fn call`: extract the
session identifier from the request's cookie header by the configured cookie
name; with an identifier, read the session from the backend and load it (any
load failure aborts before the chain runs); without one, construct a new
session directly.  Then run the downstream handler chain (its errors
propagate unchanged) and post-process its response with `persist_session`.
The request's cookie header is modelled as an association list of cookie
name/value pairs; the handler chain as a function from request state to an
`Except` of state and response. -/
def SessionMiddleware.call (codec : Codec T) (backend : Backend)
    (cookie_config : SessionCookieConfig) (state : State T)
    (requestCookies : List (String × String))
    (chain : State T → Except ε (State T × Response)) :
    Except (MwError T ε) ((State T × Response) × List PersistEvent) :=
  let session_identifier : Option SessionIdentifier :=
    (requestCookies.lookup cookie_config.name).map
      (fun value => { value := value })
  match session_identifier with
  | some id =>
    match SessionMiddleware.load_session codec backend cookie_config state id
        (backend.read_session id) with
    | Except.error (st, e) => Except.error (MwError.load st e)
    | Except.ok st =>
      match chain st with
      | Except.error e => Except.error (MwError.handler e)
      | Except.ok sr => Except.ok (persist_session codec sr)
  | none =>
    match chain (SessionMiddleware.new_session codec backend cookie_config state) with
    | Except.error e => Except.error (MwError.handler e)
    | Except.ok sr => Except.ok (persist_session codec sr)

/-- Rust `NewSessionMiddleware` without its phantom type parameter: the
backend factory value paired with the shared cookie configuration. -/
structure NewSessionMiddleware (B : Type) where
  new_backend : B
  cookie_config : SessionCookieConfig

/-- Rust `NewSessionMiddleware::new`: reference default configuration, cookie
name `_gotham_session`, secure cookies. -/
def NewSessionMiddleware.new (b : B) : NewSessionMiddleware B :=
  { new_backend := b
    cookie_config := { name := "_gotham_session", secure := SecureCookie.Secure } }

/-- Rust `NewSessionMiddleware::insecure`: same cookie name, insecure
cookies. -/
def NewSessionMiddleware.insecure (b : B) : NewSessionMiddleware B :=
  { new_backend := b
    cookie_config := { name := "_gotham_session", secure := SecureCookie.Insecure } }

/-- Project the number of `Set-Cookie` headers out of a pipeline result
(`none` when the pipeline failed). -/
def resultSetCookieCount (r : Except (MwError T ε) ((State T × Response) × List PersistEvent)) :
    Option Nat :=
  match r with
  | Except.ok ((_, response), _) => some response.setCookieCount
  | Except.error _ => none

/-! Concrete instances used by witnesses and counterexamples: a `Nat` session
value whose codec encodes `n` as the singleton byte list `[n]`, the reference
default cookie configuration, and a handful of small backends. -/

/-- A concrete codec for `Nat` session values: `n` encodes to `[n]`; only
singleton byte lists decode. -/
def cCodec : Codec Nat :=
  { default := 0
    serialize := fun n => Except.ok [n]
    deserialize := fun b =>
      match b with
      | [n] => Except.ok n
      | _ => Except.error () }

/-- A codec whose serializer always fails. -/
def cCodecSerFail : Codec Nat :=
  { default := 0
    serialize := fun _ => Except.error ()
    deserialize := fun b =>
      match b with
      | [n] => Except.ok n
      | _ => Except.error () }

/-- The reference default cookie configuration. -/
def cCfg : SessionCookieConfig :=
  { name := "_gotham_session", secure := SecureCookie.Secure }

/-- A backend with no stored sessions whose persist always succeeds. -/
def cBackendOk : Backend :=
  { random_identifier := { value := "fresh" }
    read_session := fun _ => Except.ok none
    persist_session := fun _ _ => Except.ok () }

/-- A backend whose persist always fails. -/
def cBackendPersistErr : Backend :=
  { random_identifier := { value := "fresh" }
    read_session := fun _ => Except.ok none
    persist_session := fun _ _ => Except.error (SessionError.Backend "boom") }

/-- A backend whose read always fails. -/
def cBackendReadErr : Backend :=
  { random_identifier := { value := "fresh" }
    read_session := fun _ => Except.error (SessionError.Backend "down")
    persist_session := fun _ _ => Except.ok () }

/-- A backend that returns stored bytes that do not decode under `cCodec`. -/
def cBackendBadBytes : Backend :=
  { random_identifier := { value := "fresh" }
    read_session := fun _ => Except.ok (some [1, 2])
    persist_session := fun _ _ => Except.ok () }

/-- A backend holding the record `[7]` for every identifier. -/
def cBackendStored : Backend :=
  { random_identifier := { value := "fresh" }
    read_session := fun _ => Except.ok (some [7])
    persist_session := fun _ _ => Except.ok () }

/-- A handler chain that touches nothing: it returns the state it was given
and a fresh 200 response. -/
def cChain : State Nat → Except Unit (State Nat × Response) :=
  fun st => Except.ok (st, Response.new)

/-- The session `cChain` receives when `cBackendStored` serves the request
for cookie identifier `abc`. -/
def cSdExisting : SessionData Nat :=
  { value := 7
    cookie_state := SessionCookieState.Existing
    state := SessionDataState.Clean
    identifier := { value := "abc" }
    backend := cBackendStored
    cookie_config := cCfg }

/-! Helper lemmas about handler accesses to a session. -/

/-- One access never changes the cookie state. -/
theorem applyOp_cookie_state (op : SessionOp T) (s : SessionData T) :
    (applyOp op s).cookie_state = s.cookie_state := by
  cases op <;> rfl

/-- Unfolding one step of a sequence of accesses. -/
theorem applyOps_cons (op : SessionOp T) (ops : List (SessionOp T)) (s : SessionData T) :
    applyOps (op :: ops) s = applyOps ops (applyOp op s) := rfl

/-- A sequence of accesses never changes the cookie state. -/
theorem applyOps_cookie_state (ops : List (SessionOp T)) (s : SessionData T) :
    (applyOps ops s).cookie_state = s.cookie_state := by
  induction ops generalizing s with
  | nil => rfl
  | cons op ops ih => rw [applyOps_cons, ih, applyOp_cookie_state]

/-- One access never cleans a dirty session. -/
theorem applyOp_dirty (op : SessionOp T) (s : SessionData T)
    (h : s.state = SessionDataState.Dirty) :
    (applyOp op s).state = SessionDataState.Dirty := by
  cases op with
  | read => exact h
  | write f => rfl

/-- A sequence of accesses never cleans a dirty session. -/
theorem applyOps_dirty (ops : List (SessionOp T)) (s : SessionData T)
    (h : s.state = SessionDataState.Dirty) :
    (applyOps ops s).state = SessionDataState.Dirty := by
  induction ops generalizing s with
  | nil => exact h
  | cons op ops ih => rw [applyOps_cons]; exact ih _ (applyOp_dirty op s h)

/-- C4: every `SessionData` reachable by either construction path
(`SessionData::new` or a successful `SessionData::construct`) followed by any
sequence of read and mutable accesses satisfies: if its cookie state is `New`
then its dirty state is `Dirty`; the state `New` with `Clean` is
unreachable. -/
theorem new_always_dirty (codec : Codec T) (backend : Backend)
    (cfg : SessionCookieConfig) (sd : SessionData T)
    (hreach : sd = SessionData.new codec backend cfg ∨
      ∃ id v, SessionData.construct codec backend cfg id v = Except.ok sd)
    (ops : List (SessionOp T))
    (hnew : (applyOps ops sd).cookie_state = SessionCookieState.New) :
    (applyOps ops sd).state = SessionDataState.Dirty := by
  rcases hreach with h | ⟨id, v, h⟩
  · subst h
    exact applyOps_dirty ops _ rfl
  · cases v with
    | none =>
      simp [SessionData.construct] at h
      subst h
      exact applyOps_dirty ops _ rfl
    | some bytes =>
      cases hdes : codec.deserialize bytes with
      | ok value =>
        simp [SessionData.construct, hdes] at h
        subst h
        rw [applyOps_cookie_state] at hnew
        simp at hnew
      | error e =>
        simp [SessionData.construct, hdes] at h

/-- C4 witness: a concrete freshly constructed session, after one mutable
access, has cookie state `New` and dirty state `Dirty`. -/
theorem new_always_dirty_witness :
    (applyOps [SessionOp.write (fun n => n + 2)]
      (SessionData.new cCodec cBackendOk cCfg)).state = SessionDataState.Dirty :=
  new_always_dirty cCodec cBackendOk cCfg _ (Or.inl rfl) _ rfl

/-- C5: a backend read that comes back `Ok(None)` (cookie presented but no
record) yields, through `SessionData::construct`, exactly the session that
`SessionData::new` mints: cookie state `New`, dirty state `Dirty`, the
default value of the session type, and a freshly generated identifier from
the backend — independent of the client-supplied identifier, which is never
reused.  `load_session` stores that session into the request state. -/
theorem construct_none_mints_fresh (codec : Codec T) (backend : Backend)
    (cfg : SessionCookieConfig) (id : SessionIdentifier) (st0 : State T) :
    SessionData.construct codec backend cfg id none =
      Except.ok (SessionData.new codec backend cfg)
    ∧ (SessionData.new codec backend cfg).cookie_state = SessionCookieState.New
    ∧ (SessionData.new codec backend cfg).state = SessionDataState.Dirty
    ∧ (SessionData.new codec backend cfg).value = codec.default
    ∧ (SessionData.new codec backend cfg).identifier = backend.random_identifier
    ∧ (∀ id₂ : SessionIdentifier,
        SessionData.construct codec backend cfg id none =
          SessionData.construct codec backend cfg id₂ none)
    ∧ SessionMiddleware.load_session codec backend cfg st0 id (Except.ok none) =
        Except.ok (State.put st0 (SessionData.new codec backend cfg)) :=
  ⟨rfl, rfl, rfl, rfl, rfl, fun _ => rfl, rfl⟩

/-- C6: the dirty bit moves only one way.  A mutable borrow (`DerefMut`)
always sets it; any mutable access leaves the session `Dirty`; and once a
session is `Dirty`, no sequence of accesses ever makes it `Clean` again. -/
theorem dirty_bit_one_way (T : Type) :
    (∀ s : SessionData T, (SessionData.deref_mut s).1.state = SessionDataState.Dirty)
    ∧ (∀ (s : SessionData T) (f : T → T),
        (applyOp (SessionOp.write f) s).state = SessionDataState.Dirty)
    ∧ (∀ s : SessionData T, s.state = SessionDataState.Dirty →
        ∀ ops : List (SessionOp T), (applyOps ops s).state = SessionDataState.Dirty) :=
  ⟨fun _ => rfl, fun _ _ => rfl, fun s h ops => applyOps_dirty ops s h⟩

/-- C6 witness: a concrete dirty session stays dirty across a read followed
by a mutation. -/
theorem dirty_bit_one_way_witness :
    (applyOps [SessionOp.read, SessionOp.write (fun n => n + 1)]
      (SessionData.new cCodec cBackendOk cCfg)).state = SessionDataState.Dirty :=
  (dirty_bit_one_way Nat).2.2 _ rfl _

/-- C7: the cookie emitted for a session uses the configured cookie name and
the session's identifier, always carries `HttpOnly`, and carries the `secure`
attribute exactly when the configuration is secure; `persist_session` emits
it (as the single `Set-Cookie` header) when the session's cookie state is
`New`; and the reference default configuration is name `_gotham_session`
with secure cookies. -/
theorem new_session_cookie_format (sd : SessionData T) (resp : Response) :
    (sd.cookie_config.secure = SecureCookie.Insecure →
      send_cookie resp sd =
        { resp with setCookie := some [sd.cookie_config.name ++ "=" ++ sd.identifier.value ++ "; HttpOnly"] })
    ∧ (sd.cookie_config.secure = SecureCookie.Secure →
      send_cookie resp sd =
        { resp with setCookie := some [sd.cookie_config.name ++ "=" ++ sd.identifier.value ++ "; secure; HttpOnly"] })
    ∧ (∀ (codec : Codec T) (bytes : Bytes),
        sd.cookie_state = SessionCookieState.New →
        sd.state = SessionDataState.Dirty →
        codec.serialize sd.value = Except.ok bytes →
        sd.backend.persist_session sd.identifier bytes = Except.ok () →
        persist_session codec ({ session := some sd }, resp) =
          (({ session := none }, send_cookie resp sd),
            [{ identifier := sd.identifier, bytes := bytes }]))
    ∧ (∀ (B : Type) (b : B),
        (NewSessionMiddleware.new b).cookie_config =
          { name := "_gotham_session", secure := SecureCookie.Secure }) := by
  refine ⟨?_, ?_, ?_, fun _ _ => rfl⟩
  · intro h
    simp [send_cookie, h]
  · intro h
    simp [send_cookie, h]
  · intro codec bytes hnew hdirty hser hper
    simp [persist_session, State.take, hnew, hdirty, write_session, hser, hper]

/-- C7 witness: the concrete cookie string for the reference default secure
configuration and a fresh identifier. -/
theorem new_session_cookie_format_witness :
    send_cookie Response.new (SessionData.new cCodec cBackendOk cCfg) =
      { Response.new with setCookie := some ["_gotham_session=fresh; secure; HttpOnly"] } :=
  (new_session_cookie_format (SessionData.new cCodec cBackendOk cCfg) Response.new).2.1 rfl

/-- C10: an immutable borrow (`Deref`) returns the session value and leaves
every field of the session unchanged — in particular the dirty bit — so
post-processing an `Existing` session touched only through `Deref` makes no
persist call and passes the handler's response through unchanged. -/
theorem read_only_no_persist (codec : Codec T) (s : SessionData T) (resp : Response)
    (hex : s.cookie_state = SessionCookieState.Existing)
    (hclean : s.state = SessionDataState.Clean) :
    (SessionData.deref s).1 = s
    ∧ (SessionData.deref s).2 = s.value
    ∧ persist_session codec ({ session := some (SessionData.deref s).1 }, resp) =
        (({ session := none }, resp), []) := by
  refine ⟨rfl, rfl, ?_⟩
  simp [persist_session, State.take, SessionData.deref, hex, hclean]

/-- C10 witness: a concrete existing clean session, read through `Deref`,
produces no persist call and leaves the response unchanged. -/
theorem read_only_no_persist_witness :
    persist_session cCodec
      ({ session := some (SessionData.deref cSdExisting).1 }, Response.new) =
      (({ session := none }, Response.new), []) :=
  (read_only_no_persist cCodec cSdExisting Response.new rfl rfl).2.2

/-- C1 counterexample: a request with no cookie, a handler that touches
nothing and returns a plain response, and a backend whose persist fails.  The
new session is `Dirty`, so post-processing reaches `write_session`, which
replaces the cookie-carrying response with a fresh internal-server-error
response: the middleware's response carries zero `Set-Cookie` headers, not
exactly one. -/
theorem no_cookie_counterexample :
    resultSetCookieCount
      (SessionMiddleware.call cCodec cBackendPersistErr cCfg { session := none } [] cChain) =
    some 0 := rfl

/-- C1 (amended): for a request with no session cookie, if the handler chain
succeeds and leaves a session whose cookie state is `New` in the request
state, and serializing that session's value and persisting it through the
backend both succeed, then the middleware's response carries exactly one
`Set-Cookie` header. -/
theorem no_cookie_single_set_cookie (codec : Codec T) (backend : Backend)
    (cfg : SessionCookieConfig) (st0 : State T) (cookies : List (String × String))
    (chain : State T → Except ε (State T × Response)) (sd : SessionData T)
    (resp : Response) (bytes : Bytes)
    (hno : cookies.lookup cfg.name = none)
    (hchain : chain (SessionMiddleware.new_session codec backend cfg st0) =
      Except.ok (State.put st0 sd, resp))
    (hnew : sd.cookie_state = SessionCookieState.New)
    (hser : codec.serialize sd.value = Except.ok bytes)
    (hper : sd.backend.persist_session sd.identifier bytes = Except.ok ()) :
    ∃ r t, SessionMiddleware.call codec backend cfg st0 cookies chain =
      Except.ok (({ session := none }, r), t) ∧ r.setCookieCount = 1 := by
  have hcall : SessionMiddleware.call codec backend cfg st0 cookies chain =
      Except.ok (persist_session codec (State.put st0 sd, resp)) := by
    simp [SessionMiddleware.call, hno, hchain]
  have hcount : (send_cookie resp sd).setCookieCount = 1 := by
    cases hsec : sd.cookie_config.secure <;>
      simp [send_cookie, hsec, Response.setCookieCount]
  cases hst : sd.state with
  | Dirty =>
    refine ⟨send_cookie resp sd, [{ identifier := sd.identifier, bytes := bytes }],
      ?_, hcount⟩
    rw [hcall]
    simp [persist_session, State.take, State.put, hnew, hst, write_session, hser, hper]
  | Clean =>
    refine ⟨send_cookie resp sd, [], ?_, hcount⟩
    rw [hcall]
    simp [persist_session, State.take, State.put, hnew, hst]

/-- C1 amended witness: the concrete no-cookie request through the working
backend yields exactly one `Set-Cookie` header. -/
theorem no_cookie_single_set_cookie_witness :
    ∃ r t, SessionMiddleware.call cCodec cBackendOk cCfg { session := none } [] cChain =
      Except.ok (({ session := none }, r), t) ∧ r.setCookieCount = 1 :=
  no_cookie_single_set_cookie cCodec cBackendOk cCfg { session := none } [] cChain
    (SessionData.new cCodec cBackendOk cCfg) Response.new [0] rfl rfl rfl rfl rfl

/-- C2: post-processing a `Dirty` session whose serialization fails, or whose
backend persist fails, still completes the request successfully — the
pipeline returns `ok`, no error is propagated — but the handler's response is
replaced by a freshly constructed generic internal-server-error response. -/
theorem persist_failure_completes_ok (codec : Codec T) (backend : Backend)
    (cfg : SessionCookieConfig) (st0 : State T) (cookies : List (String × String))
    (chain : State T → Except ε (State T × Response)) (sd : SessionData T)
    (resp : Response)
    (hno : cookies.lookup cfg.name = none)
    (hchain : chain (SessionMiddleware.new_session codec backend cfg st0) =
      Except.ok (State.put st0 sd, resp))
    (hdirty : sd.state = SessionDataState.Dirty)
    (hfail : codec.serialize sd.value = Except.error () ∨
      ∃ bytes e, codec.serialize sd.value = Except.ok bytes ∧
        sd.backend.persist_session sd.identifier bytes = Except.error e) :
    ∃ t, SessionMiddleware.call codec backend cfg st0 cookies chain =
      Except.ok (({ session := none }, Response.with_status Response.new 500), t) := by
  have hcall : SessionMiddleware.call codec backend cfg st0 cookies chain =
      Except.ok (persist_session codec (State.put st0 sd, resp)) := by
    simp [SessionMiddleware.call, hno, hchain]
  rcases hfail with hser | ⟨bytes, e, hser, hper⟩
  · refine ⟨[], ?_⟩
    rw [hcall]
    cases hcs : sd.cookie_state <;>
      simp [persist_session, State.take, State.put, hcs, hdirty, write_session, hser]
  · refine ⟨[{ identifier := sd.identifier, bytes := bytes }], ?_⟩
    rw [hcall]
    cases hcs : sd.cookie_state <;>
      simp [persist_session, State.take, State.put, hcs, hdirty, write_session, hser, hper]

/-- C2 witness: a failing serializer on the concrete no-cookie request still
yields an `ok` pipeline result carrying the fresh 500 response. -/
theorem persist_failure_completes_ok_witness :
    ∃ t, SessionMiddleware.call cCodecSerFail cBackendOk cCfg { session := none } [] cChain =
      Except.ok (({ session := none }, Response.with_status Response.new 500), t) :=
  persist_failure_completes_ok cCodecSerFail cBackendOk cCfg { session := none } [] cChain
    (SessionData.new cCodecSerFail cBackendOk cCfg) Response.new rfl rfl rfl (Or.inl rfl)

/-- C3: when a request presents a session cookie and the backend read fails,
or the stored bytes fail to decode, the middleware fails the request with the
corresponding propagated load error (a `Deserialize` error in the decode
case, no fallback to a default value); the conclusion holds for every handler
chain — the chain is never invoked. -/
theorem load_failure_aborts (codec : Codec T) (backend : Backend)
    (cfg : SessionCookieConfig) (st0 : State T)
    (cookies : List (String × String)) (v : String)
    (hcookie : cookies.lookup cfg.name = some v) :
    (∀ e, backend.read_session { value := v } = Except.error e →
      ∀ chain : State T → Except ε (State T × Response),
        SessionMiddleware.call codec backend cfg st0 cookies chain =
          Except.error (MwError.load st0 (LoadError.backendError e)))
    ∧ (∀ bytes, backend.read_session { value := v } = Except.ok (some bytes) →
        codec.deserialize bytes = Except.error () →
        ∀ chain : State T → Except ε (State T × Response),
          SessionMiddleware.call codec backend cfg st0 cookies chain =
            Except.error (MwError.load st0
              (LoadError.deserializeError SessionError.Deserialize))) := by
  constructor
  · intro e hread chain
    simp [SessionMiddleware.call, hcookie, hread, SessionMiddleware.load_session]
  · intro bytes hread hdec chain
    simp [SessionMiddleware.call, hcookie, hread, SessionMiddleware.load_session,
      SessionData.construct, hdec]

/-- C3 witness: the concrete request whose backend read fails aborts with the
wrapped backend error, with the handler chain never consulted. -/
theorem load_failure_aborts_witness :
    SessionMiddleware.call cCodec cBackendReadErr cCfg { session := none }
      [("_gotham_session", "abc")] cChain =
    Except.error (MwError.load { session := none }
      (LoadError.backendError (SessionError.Backend "down"))) :=
  (load_failure_aborts cCodec cBackendReadErr cCfg { session := none }
    [("_gotham_session", "abc")] "abc" rfl).1 (SessionError.Backend "down") rfl cChain

/-- C8: a request carrying a cookie for an existing session that the handler
hands back untouched (the session stays `Existing` and `Clean`) makes zero
persist calls, adds zero `Set-Cookie` headers, and returns the handler's
response unmodified. -/
theorem clean_existing_frame (codec : Codec T) (backend : Backend)
    (cfg : SessionCookieConfig) (st0 : State T) (cookies : List (String × String))
    (v : String) (bytes : Bytes) (sd : SessionData T) (resp : Response)
    (chain : State T → Except ε (State T × Response))
    (hcookie : cookies.lookup cfg.name = some v)
    (hread : backend.read_session { value := v } = Except.ok (some bytes))
    (hconstruct : SessionData.construct codec backend cfg { value := v } (some bytes) =
      Except.ok sd)
    (hchain : chain (State.put st0 sd) = Except.ok (State.put st0 sd, resp)) :
    SessionMiddleware.call codec backend cfg st0 cookies chain =
      Except.ok (({ session := none }, resp), []) := by
  have hsd : sd.cookie_state = SessionCookieState.Existing ∧
      sd.state = SessionDataState.Clean := by
    cases hdes : codec.deserialize bytes with
    | ok value =>
      simp [SessionData.construct, hdes] at hconstruct
      constructor <;> simp [← hconstruct]
    | error e =>
      simp [SessionData.construct, hdes] at hconstruct
  simp [State.put] at hchain
  simp [SessionMiddleware.call, hcookie, hread, SessionMiddleware.load_session,
    hconstruct, State.put, hchain, persist_session, State.take, hsd.1, hsd.2]

/-- C8 witness: the concrete request against the backend storing `[7]` under
the presented identifier passes the handler's response through with an empty
persist trace. -/
theorem clean_existing_frame_witness :
    SessionMiddleware.call cCodec cBackendStored cCfg { session := none }
      [("_gotham_session", "abc")] cChain =
    Except.ok (({ session := none }, Response.new), []) :=
  clean_existing_frame cCodec cBackendStored cCfg { session := none }
    [("_gotham_session", "abc")] "abc" [7] cSdExisting Response.new cChain
    rfl rfl rfl rfl

/-- C9: the internal-server-error response produced when serialization or the
backend persist fails is freshly constructed: it carries none of the handler
response's headers or body, and no `Set-Cookie` header — even though the
(arbitrary, possibly `New`) session may already have had its cookie set on
the handler's response before `write_session` ran. -/
theorem failure_response_fresh (codec : Codec T) (sd : SessionData T) (resp : Response)
    (hdirty : sd.state = SessionDataState.Dirty)
    (hfail : codec.serialize sd.value = Except.error () ∨
      ∃ bytes e, codec.serialize sd.value = Except.ok bytes ∧
        sd.backend.persist_session sd.identifier bytes = Except.error e) :
    (persist_session codec ({ session := some sd }, resp)).1.2 =
      { status := 500, setCookie := none, headers := [], body := [] } := by
  rcases hfail with hser | ⟨bytes, e, hser, hper⟩
  · cases hcs : sd.cookie_state <;>
      simp [persist_session, State.take, hcs, hdirty, write_session, hser,
        Response.with_status, Response.new]
  · cases hcs : sd.cookie_state <;>
      simp [persist_session, State.take, hcs, hdirty, write_session, hser, hper,
        Response.with_status, Response.new]

/-- C9 witness: a concrete `New` dirty session whose persist fails turns a
handler response full of headers, body bytes and an already-set cookie into
the bare 500 response. -/
theorem failure_response_fresh_witness :
    (persist_session cCodec
      ({ session := some (SessionData.new cCodec cBackendPersistErr cCfg) },
        { status := 200, setCookie := some ["x"], headers := [("a", "b")], body := [1] })).1.2 =
      { status := 500, setCookie := none, headers := [], body := [] } :=
  failure_response_fresh cCodec (SessionData.new cCodec cBackendPersistErr cCfg)
    { status := 200, setCookie := some ["x"], headers := [("a", "b")], body := [1] }
    rfl (Or.inr ⟨[0], SessionError.Backend "boom", rfl, rfl⟩)

end Gotham
